import Mathlib

/-!
Verification development for the LinkedIn post-counter content script
(`LinkedInContentScript` in the content script source).  The heuristic
recency-classification pipeline is shallowly embedded: JS strings are Lean
`String`s manipulated through explicit character-list helpers mirroring the
JS semantics (`trim`, `toLowerCase`, `substring`, `includes`, `length`),
instants are `Int` milliseconds, the DOM is abstracted to the data each
function actually reads (fragment text, located `<time>` element attributes,
media-query results), and host capabilities (selector matching, `Date`
parsing) appear as fields of the input records.
-/

namespace LinkedInCounter

/-! ### JS string primitives -/

/-- JS-style whitespace test (`\s` for the characters occurring here). -/
def isWs (c : Char) : Bool := c.isWhitespace

/-- Characters of a string, in order. -/
def chars (s : String) : List Char := s.data

/-- `needle` is a prefix of `hay` (used to search substrings). -/
def isPrefixL : List Char → List Char → Bool
  | [], _ => true
  | _ :: _, [] => false
  | a :: as, b :: bs => a == b && isPrefixL as bs

/-- `needle` occurs somewhere inside `hay`. -/
def hasSubList (needle : List Char) : List Char → Bool
  | [] => needle.isEmpty
  | c :: tl => isPrefixL needle (c :: tl) || hasSubList needle tl

/-- JS `s.includes(sub)`. -/
def jsIncludes (s sub : String) : Bool := hasSubList (chars sub) (chars s)

/-- JS `s.trim()`: strip whitespace from both ends. -/
def jsTrim (s : String) : String :=
  String.mk ((((chars s).dropWhile isWs).reverse.dropWhile isWs).reverse)

/-- JS `s.toLowerCase()` (ASCII, which is all the fixtures use). -/
def jsToLower (s : String) : String := String.mk ((chars s).map Char.toLower)

/-- JS `s.length` (all fixture characters are single UTF-16 units). -/
def jsLength (s : String) : Nat := (chars s).length

/-- JS `s.substring(0, n)`. -/
def jsTake (s : String) (n : Nat) : String := String.mk ((chars s).take n)

/-! ### Name validation (`isValidProfileName`) -/

/-- Stop-list of substrings a valid name must not contain
(case-insensitive), in source order. -/
def nameStopTerms : List String :=
  ["linkedin", "profile", "activity", "recent", "connection", "view", "show",
   "edit", "update", "see all", "see more", "follow", "connect", "message"]

/-- The closed set of UI verbs rejected as exact (case-insensitive) matches,
from the regex alternation in the source. -/
def uiWordList : List String :=
  ["show", "view", "see", "all", "more", "less", "edit", "update", "follow",
   "connect", "message", "home", "about", "contact"]

/-- `isValidProfileName` from the content script: every conjunct of the
source's validation expression, in order.  `!name` on a JS string is the
empty-string test. -/
def isValidProfileName (name : String) : Bool :=
  if name = "" then false
  else
    let cleanName := jsTrim name
    let lower := jsToLower cleanName
    decide (2 ≤ jsLength cleanName) &&
    decide (jsLength cleanName ≤ 100) &&
    !(nameStopTerms.any (fun t => jsIncludes lower t)) &&
    !(jsIncludes cleanName "(") &&
    !(jsIncludes cleanName ")") &&
    !(jsIncludes cleanName "[") &&
    !(jsIncludes cleanName "]") &&
    !(!(chars cleanName).isEmpty && (chars cleanName).all Char.isDigit) &&
    !((chars cleanName).all fun ch => !ch.isAlpha) &&
    !(jsIncludes cleanName "@") &&
    !(jsIncludes cleanName "www.") &&
    !(jsIncludes cleanName "http") &&
    !(uiWordList.contains lower) &&
    (chars cleanName).any Char.isAlpha &&
    !((chars cleanName).all Char.isWhitespace)


/-! ### Relative-time pattern matchers (`parseTimeFromText`)

Each JS regex from the `recentPatterns` table is embedded as a matcher that
attempts the pattern at the head of a character list and returns the captured
number (raw `parseInt` value) together with the remaining characters.
Backtracking choice points (`(?:in|inute)?`, `s?`, …) are spelled out with
`oOr` in the engine's preference order. -/

/-- First-success choice, the shape JS backtracking takes on these patterns. -/
def oOr {α : Type} (a b : Option α) : Option α :=
  match a with
  | some x => some x
  | none => b

/-- Greedy `\d+`: split off the leading digit run. -/
def takeDigits : List Char → List Char × List Char
  | [] => ([], [])
  | c :: cs =>
    if c.isDigit then
      let p := takeDigits cs
      (c :: p.1, p.2)
    else ([], c :: cs)

/-- Numeric value of a digit run (JS `parseInt` on the capture). -/
def digitsToNat (ds : List Char) : Nat :=
  ds.foldl (fun a c => a * 10 + (c.toNat - 48)) 0

/-- Match `(\d+)`: at least one digit, greedily. -/
def digits1 (l : List Char) : Option (Nat × List Char) :=
  match takeDigits l with
  | (d, r) => if d.isEmpty then none else some (digitsToNat d, r)

/-- Greedy `\s*`. -/
def skipWs (l : List Char) : List Char := l.dropWhile isWs

/-- Match `\s*ago`. -/
def wsAgo (r : List Char) : Option (List Char) :=
  match skipWs r with
  | 'a' :: 'g' :: 'o' :: rest => some rest
  | _ => none

/-- Match `s?\s*ago`, preferring to consume the `s`. -/
def sOptWsAgo (r : List Char) : Option (List Char) :=
  match r with
  | 's' :: r2 => oOr (wsAgo r2) (wsAgo r)
  | _ => wsAgo r

/-- `(\d+)\s*m(?:in|inute)?s?\s*ago`. -/
def tryMinutesAgo (l : List Char) : Option (Nat × List Char) :=
  match digits1 l with
  | none => none
  | some (v, r1) =>
    match skipWs r1 with
    | 'm' :: r3 =>
      match oOr (match r3 with
                 | 'i' :: 'n' :: r4 => sOptWsAgo r4
                 | _ => none)
            (oOr (match r3 with
                  | 'i' :: 'n' :: 'u' :: 't' :: 'e' :: r4 => sOptWsAgo r4
                  | _ => none)
              (sOptWsAgo r3)) with
      | some rest => some (v, rest)
      | none => none
    | _ => none

/-- `(\d+)\s*h(?:our|r)?s?\s*ago`. -/
def tryHoursAgo (l : List Char) : Option (Nat × List Char) :=
  match digits1 l with
  | none => none
  | some (v, r1) =>
    match skipWs r1 with
    | 'h' :: r3 =>
      match oOr (match r3 with
                 | 'o' :: 'u' :: 'r' :: r4 => sOptWsAgo r4
                 | _ => none)
            (oOr (match r3 with
                  | 'r' :: r4 => sOptWsAgo r4
                  | _ => none)
              (sOptWsAgo r3)) with
      | some rest => some (v, rest)
      | none => none
    | _ => none

/-- `1\s*d(?:ay)?\s*ago` (no capture group). -/
def tryOneDayAgo (l : List Char) : Option (Unit × List Char) :=
  match l with
  | '1' :: r1 =>
    match skipWs r1 with
    | 'd' :: r3 =>
      match oOr (match r3 with
                 | 'a' :: 'y' :: r4 => wsAgo r4
                 | _ => none)
            (wsAgo r3) with
      | some rest => some ((), rest)
      | none => none
    | _ => none
  | _ => none

/-- `yesterday` (no capture group; input is already lower-cased). -/
def tryYesterday (l : List Char) : Option (Unit × List Char) :=
  match l with
  | 'y' :: 'e' :: 's' :: 't' :: 'e' :: 'r' :: 'd' :: 'a' :: 'y' :: r => some ((), r)
  | _ => none

/-- `(\d+)h\s*ago`. -/
def tryHAgo (l : List Char) : Option (Nat × List Char) :=
  match digits1 l with
  | none => none
  | some (v, r1) =>
    match r1 with
    | 'h' :: r2 =>
      match wsAgo r2 with
      | some rest => some (v, rest)
      | none => none
    | _ => none

/-- `(\d+)m\s*ago`. -/
def tryMAgo (l : List Char) : Option (Nat × List Char) :=
  match digits1 l with
  | none => none
  | some (v, r1) =>
    match r1 with
    | 'm' :: r2 =>
      match wsAgo r2 with
      | some rest => some (v, rest)
      | none => none
    | _ => none

/-- `(\d+)\s*hrs?\s*ago`. -/
def tryHrsAgo (l : List Char) : Option (Nat × List Char) :=
  match digits1 l with
  | none => none
  | some (v, r1) =>
    match skipWs r1 with
    | 'h' :: 'r' :: r3 =>
      match sOptWsAgo r3 with
      | some rest => some (v, rest)
      | none => none
    | _ => none

/-- `(\d+)\s*mins?\s*ago`. -/
def tryMinsAgo (l : List Char) : Option (Nat × List Char) :=
  match digits1 l with
  | none => none
  | some (v, r1) =>
    match skipWs r1 with
    | 'm' :: 'i' :: 'n' :: r3 =>
      match sOptWsAgo r3 with
      | some rest => some (v, rest)
      | none => none
    | _ => none

/-- `about\s*(\d+)\s*hours?\s*ago`. -/
def tryAboutHours (l : List Char) : Option (Nat × List Char) :=
  match l with
  | 'a' :: 'b' :: 'o' :: 'u' :: 't' :: r1 =>
    match digits1 (skipWs r1) with
    | none => none
    | some (v, r2) =>
      match skipWs r2 with
      | 'h' :: 'o' :: 'u' :: 'r' :: r3 =>
        match sOptWsAgo r3 with
        | some rest => some (v, rest)
        | none => none
      | _ => none
  | _ => none

/-- `about\s*(\d+)\s*minutes?\s*ago`. -/
def tryAboutMinutes (l : List Char) : Option (Nat × List Char) :=
  match l with
  | 'a' :: 'b' :: 'o' :: 'u' :: 't' :: r1 =>
    match digits1 (skipWs r1) with
    | none => none
    | some (v, r2) =>
      match skipWs r2 with
      | 'm' :: 'i' :: 'n' :: 'u' :: 't' :: 'e' :: r3 =>
        match sOptWsAgo r3 with
        | some rest => some (v, rest)
        | none => none
      | _ => none
  | _ => none

/-- `(\d+)\s*h$`. -/
def tryHEnd (l : List Char) : Option (Nat × List Char) :=
  match digits1 l with
  | none => none
  | some (v, r1) =>
    match skipWs r1 with
    | ['h'] => some (v, [])
    | _ => none

/-- `(\d+)\s*m$`. -/
def tryMEnd (l : List Char) : Option (Nat × List Char) :=
  match digits1 l with
  | none => none
  | some (v, r1) =>
    match skipWs r1 with
    | ['m'] => some (v, [])
    | _ => none

/-- Leftmost match: try the pattern at each position in turn, returning
`match[0]` (the consumed characters) and the capture. -/
def scanFirst {α : Type} (t : List Char → Option (α × List Char)) :
    List Char → Option (List Char × α)
  | [] =>
    match t [] with
    | some (v, _) => some ([], v)
    | none => none
  | c :: tl =>
    match t (c :: tl) with
    | some (v, rest) => some ((c :: tl).take ((c :: tl).length - rest.length), v)
    | none => scanFirst t tl

/-- Outcome of the recency classifier for one piece of evidence. -/
structure TimeResult where
  isRecent : Bool
  timeStr : String
deriving Repr, DecidableEq

/-- One table entry with a capture group: match, then accept iff
`(parseInt(match[1]) || 1) <= maxValue` — a too-large value rejects this
pattern and the loop continues. -/
def tryCapturePat (t : List Char → Option (Nat × List Char)) (maxV : Nat)
    (text : List Char) : Option TimeResult :=
  match scanFirst t text with
  | some (m, v) =>
    if (if v = 0 then 1 else v) ≤ maxV then
      some { isRecent := true, timeStr := "Text: " ++ String.mk m }
    else none
  | none => none

/-- One table entry with unit `days` (or the `yesterday` literal): a match is
always recent. -/
def tryDayPat (t : List Char → Option (Unit × List Char))
    (text : List Char) : Option TimeResult :=
  match scanFirst t text with
  | some (m, _) => some { isRecent := true, timeStr := "Text: " ++ String.mk m }
  | none => none

/-- `parseTimeFromText`: lower-case the content, then run the
`recentPatterns` table in source order; first accepted pattern wins. -/
def parseTimeFromText (content : String) : Option TimeResult :=
  let text := chars (jsToLower content)
  oOr (tryCapturePat tryMinutesAgo 1440 text)
   (oOr (tryCapturePat tryHoursAgo 24 text)
    (oOr (tryDayPat tryOneDayAgo text)
     (oOr (tryDayPat tryYesterday text)
      (oOr (tryCapturePat tryHAgo 24 text)
       (oOr (tryCapturePat tryMAgo 1440 text)
        (oOr (tryCapturePat tryHrsAgo 24 text)
         (oOr (tryCapturePat tryMinsAgo 1440 text)
          (oOr (tryCapturePat tryAboutHours 24 text)
           (oOr (tryCapturePat tryAboutMinutes 1440 text)
            (oOr (tryCapturePat tryHEnd 24 text)
             (tryCapturePat tryMEnd 1440 text)))))))))))


/-! ### Explicit timestamps and the per-fragment classifier -/

/-- The `<time>` marker `findTimeElement` located for a fragment, reduced to
the three attributes `parseTimeElement` reads.  `datetime` carries the raw
attribute string together with the host `Date` parse of it (`none` when the
parse is `NaN`). -/
structure TimeEl where
  datetime : Option (String × Option Int)
  ariaLabel : Option String
  title : Option String
deriving Repr, DecidableEq

/-- `parseTimeElement`: a valid `datetime` inside `[cutoffTime, now]` is
recent with the raw attribute as label; otherwise fall through to the
`aria-label` and then `title` attributes, each consulted only when it
contains `"ago"`, via `parseTimeFromText`. -/
def parseTimeElement (te : TimeEl) (cutoffTime now : Int) : Option TimeResult :=
  let fromDatetime : Option TimeResult :=
    match te.datetime with
    | some (raw, some t) =>
      if cutoffTime ≤ t ∧ t ≤ now then some { isRecent := true, timeStr := raw }
      else none
    | _ => none
  match fromDatetime with
  | some r => some r
  | none =>
    let fromAria : Option TimeResult :=
      match te.ariaLabel with
      | some al => if jsIncludes al "ago" then parseTimeFromText al else none
      | none => none
    match fromAria with
    | some r => some r
    | none =>
      match te.title with
      | some ti => if jsIncludes ti "ago" then parseTimeFromText ti else none
      | none => none

/-- A candidate content fragment, reduced to the data
`extractPostFromElement` reads: its `textContent`, the time marker
`findTimeElement` resolves for it (if any), and the media-indicator query
results used for the post type. -/
structure Element where
  text : String
  timeEl : Option TimeEl
  hasImage : Bool
  hasVideo : Bool
  hasArticle : Bool
  hasPoll : Bool
deriving Repr, DecidableEq

/-- The emitted record for one qualifying fragment. -/
structure Post where
  text : String
  time : String
  type : String
deriving Repr, DecidableEq

/-- Media-type classification from the four indicator queries, in source
order, defaulting to `text`. -/
def postTypeOf (e : Element) : String :=
  if e.hasImage then "image"
  else if e.hasVideo then "video"
  else if e.hasArticle then "article"
  else if e.hasPoll then "poll"
  else "text"

/-- The `isRecent`/`timeStr` state machine of `extractPostFromElement`:
the time-element result is used when it says recent, otherwise the
fragment's own text is pattern-matched; `some` means the final `isRecent`
is true, carrying the final `timeStr`. -/
def classifyFragment (e : Element) (cutoffTime now : Int) : Option TimeResult :=
  let fromEl : Option TimeResult :=
    match e.timeEl with
    | some te => parseTimeElement te cutoffTime now
    | none => none
  match fromEl with
  | some r =>
    if r.isRecent then some r
    else
      match parseTimeFromText (jsTrim e.text) with
      | some r2 => if r2.isRecent then some r2 else none
      | none => none
  | none =>
    match parseTimeFromText (jsTrim e.text) with
    | some r2 => if r2.isRecent then some r2 else none
    | none => none

/-- De-duplication key of a fragment's trimmed text: its first 100
characters. -/
def keyOf (content : String) : String := jsTake content 100

/-- De-duplication key of an emitted post (its `text` is the trimmed
fragment content). -/
def postKey (p : Post) : String := jsTake p.text 100

/-- `extractPostFromElement`: skip already-processed or too-short fragments,
classify, and on success add the key to the processed set and emit the
record.  Returns the emitted record (if any) and the updated set. -/
def extractPostFromElement (e : Element) (cutoffTime now : Int)
    (processedContent : List String) : Option Post × List String :=
  let content := jsTrim e.text
  let contentKey := keyOf content
  if contentKey ∈ processedContent ∨ jsLength content < 15 then
    (none, processedContent)
  else
    match classifyFragment e cutoffTime now with
    | some r =>
      (some { text := content, time := r.timeStr, type := postTypeOf e },
       contentKey :: processedContent)
    | none => (none, processedContent)

/-- One step of the scan loop: visit a fragment, pushing the emitted record
(if any) and threading the shared processed-content set. -/
def scanStep (cutoffTime now : Int) (st : List Post × List String)
    (e : Element) : List Post × List String :=
  match extractPostFromElement e cutoffTime now st.2 with
  | (some p, proc2) => (st.1 ++ [p], proc2)
  | (none, proc2) => (st.1, proc2)

/-- `findRecentPostsEnhanced`: scan the flattened, ordered list of fragments
matched by the activity selectors (duplicative by design) with a fresh
de-duplication set, in first-matched-first-emitted order. -/
def findRecentPostsEnhanced (elements : List Element) (cutoffTime now : Int) :
    List Post :=
  (elements.foldl (scanStep cutoffTime now) ([], [])).1

/-! ### Fallback estimator (`performAdvancedFallbackDetection`)

The whole-document regex statistics are represented by the match data the
scoring loops read: for the time-pattern table, one entry per regex match
carrying which pattern fired and its raw captured value; for the contextual
and structural loops, their total match counts.  Scores use exact rational
arithmetic for the JS number weights. -/

/-- The ten entries of the `activityPatterns` table, in source order. -/
inductive FbPattern where
  | hoursAgo | minutesAgo | oneDayAgo | yesterday
  | hShort | mShort | hrsAgo | minsAgo
  | aboutHours | aboutMinutes
deriving Repr, DecidableEq

/-- Weight column of the `activityPatterns` table. -/
def fbWeight : FbPattern → ℚ
  | .hoursAgo => 2
  | .minutesAgo => 1
  | .oneDayAgo => 2
  | .yesterday => 2
  | .hShort => 3 / 2
  | .mShort => 1
  | .hrsAgo => 3 / 2
  | .minsAgo => 1
  | .aboutHours => 3 / 2
  | .aboutMinutes => 1

/-- One regex match of a table pattern somewhere in the page text.  `value`
is the raw captured number (`0` when the capture was the digit `0`; unused
for the two capture-free patterns). -/
structure FallbackMatch where
  pat : FbPattern
  value : Nat
deriving Repr, DecidableEq

/-- `parseInt(match[1]) || 1`: patterns without a capture group give `NaN`,
and a captured `0` is falsy, so both default to 1. -/
def fbEffValue (m : FallbackMatch) : Nat :=
  match m.pat with
  | .oneDayAgo => 1
  | .yesterday => 1
  | _ => if m.value = 0 then 1 else m.value

/-- `timeInHours` as computed from `pattern.source.includes(...)` probes:
the two abbreviated patterns (`(\d+)h`, `(\d+)m`) contain none of the probed
substrings, so their value stays 0. -/
def fbTimeInHours (p : FbPattern) (v : Nat) : ℚ :=
  match p with
  | .hoursAgo => v
  | .hrsAgo => v
  | .aboutHours => v
  | .minutesAgo => (v : ℚ) / 60
  | .minsAgo => (v : ℚ) / 60
  | .aboutMinutes => (v : ℚ) / 60
  | .oneDayAgo => 24
  | .yesterday => 24
  | .hShort => 0
  | .mShort => 0

/-- A match is counted only when its `timeInHours` is within `maxHours`
(24 for every table row). -/
def fbQualifies (m : FallbackMatch) : Bool :=
  decide (fbTimeInHours m.pat (fbEffValue m) ≤ 24)

/-- The accumulated `timePatternScore`: each qualifying match contributes
its pattern's weight. -/
def timePatternScore (ms : List FallbackMatch) : ℚ :=
  ((ms.filter fbQualifies).map fun m => fbWeight m.pat).sum

/-- Inputs of the fallback detector: the time-pattern matches over the page
text, the number of keyword-near-time-phrase matches (both orders, summed
over all keywords), and the number of structural attribute/class matches in
the markup. -/
structure FallbackInput where
  timeMatches : List FallbackMatch
  contextualPairs : Nat
  structuralMatches : Nat
deriving Repr, DecidableEq

/-- Result record of the fallback detector (count plus its `details`
diagnostics). -/
structure FallbackResult where
  count : Nat
  timePatternScoreD : ℚ
  contextualActivity : ℚ
  structuralActivity : ℚ
  totalScore : ℚ
deriving Repr, DecidableEq

/-- `performAdvancedFallbackDetection`: combine the three scores and clamp
`floor(total / 2.5)` into `[0, 12]`. -/
def performAdvancedFallbackDetection (inp : FallbackInput) : FallbackResult :=
  let tps := timePatternScore inp.timeMatches
  let ca : ℚ := (4 / 5 : ℚ) * inp.contextualPairs
  let sa : ℚ := (3 / 10 : ℚ) * inp.structuralMatches
  let total := tps + ca + sa
  let est : Int := max 0 (min (Int.floor (total / (5 / 2 : ℚ))) 12)
  { count := est.toNat
    timePatternScoreD := tps
    contextualActivity := ca
    structuralActivity := sa
    totalScore := total }

/-! ### Emergency analysis (`performEmergencyAnalysis`) -/

/-- Emergency name acceptance for one scanned element text (already
trimmed): the length window is checked on top of the standard validator. -/
def emergencyNameOk (t : String) : Bool :=
  decide (3 < jsLength t) && decide (jsLength t < 60) && isValidProfileName t

/-- Inputs of the emergency pass: the `textContent` of every `h1, h2, h3,
span, div` in document order, and the total number of activity-word matches
in the body text. -/
structure EmergencyInput where
  texts : List String
  keywordHits : Nat
deriving Repr, DecidableEq

/-- Result of the emergency pass. -/
structure EmergencyResult where
  profileName : String
  activityScore : Nat
deriving Repr, DecidableEq

/-- `performEmergencyAnalysis`: first heading-like text passing the
emergency check becomes the name; the keyword hits are divided by 20 and
capped at 3. -/
def performEmergencyAnalysis (inp : EmergencyInput) : EmergencyResult :=
  { profileName := ((inp.texts.map jsTrim).find? emergencyNameOk).getD "Unknown"
    activityScore := min (inp.keywordHits / 20) 3 }

/-! ### Orchestrator (`extractProfileData` / `analyzeCurrentProfile`)

A document is the data the pipeline reads, plus two exception oracles:
`innerExn` models an exception raised by the first statement inside the main
`try` block (caught at its boundary, recorded in `debug.errors`, leaving the
partial results in place), and `outerExn` one escaping `extractProfileData`
itself (caught by `analyzeCurrentProfile`). -/

structure Doc where
  now : Int
  nameCandidates : List String
  scanElements : List Element
  fallbackInput : FallbackInput
  emergencyInput : EmergencyInput
  innerExn : Option String
  outerExn : Option String
deriving Repr, DecidableEq

structure DebugInfo where
  errors : List String
  usedFallback : Bool
  usedEmergencyAnalysis : Bool
deriving Repr, DecidableEq

structure AnalysisResult where
  postCount : Nat
  profileName : String
  analyzedAt : Int
  posts : List Post
  error : Option String
  debug : DebugInfo
deriving Repr, DecidableEq

/-- The recency cutoff: 24 hours (in milliseconds) before analysis time. -/
def cutoffOf (doc : Doc) : Int := doc.now - 24 * 60 * 60 * 1000

/-- Display mapping applied to each record in the final result:
`text.substring(0, 150)` with an ellipsis marker when longer. -/
def truncate150 (s : String) : String :=
  if 150 < jsLength s then jsTake s 150 ++ "..." else s

def displayPost (p : Post) : Post := { p with text := truncate150 p.text }

/-- `extractProfileNameEnhanced`: first strategy value passing validation,
else `"Unknown"`. -/
def extractProfileNameEnhanced (cands : List String) : String :=
  (cands.find? isValidProfileName).getD "Unknown"

/-- Program point after name extraction (line 134). -/
def nameAfterStrategies (doc : Doc) : String :=
  if doc.innerExn.isSome then "Unknown"
  else extractProfileNameEnhanced doc.nameCandidates

/-- Program point after the direct scan (line 140). -/
def scanPostsOf (doc : Doc) : List Post :=
  if doc.innerExn.isSome then []
  else findRecentPostsEnhanced doc.scanElements (cutoffOf doc) doc.now

/-- The fallback tier runs exactly when the direct scan found nothing. -/
def fallbackRuns (doc : Doc) : Bool :=
  doc.innerExn.isNone && decide ((scanPostsOf doc).length = 0)

def fbCountOf (doc : Doc) : Nat :=
  (performAdvancedFallbackDetection doc.fallbackInput).count

/-- `debug.usedFallback` is set only when the estimate is positive. -/
def usedFallbackOf (doc : Doc) : Bool :=
  fallbackRuns doc && decide (0 < fbCountOf doc)

/-- The synthesized fallback record. -/
def fallbackRecord : Post :=
  { text := "Recent activity detected via enhanced text analysis"
    time := "Estimated from page content"
    type := "fallback-detection" }

/-- `postCount` after the fallback tier (line 160). -/
def postCountAfterFallback (doc : Doc) : Nat :=
  if usedFallbackOf doc then fbCountOf doc else (scanPostsOf doc).length

/-- `posts` after the fallback tier (line 160). -/
def postsAfterFallback (doc : Doc) : List Post :=
  if usedFallbackOf doc then scanPostsOf doc ++ [fallbackRecord]
  else scanPostsOf doc

/-- The emergency tier runs exactly when the name is still unknown and the
post count is still zero (line 163). -/
def emergencyRuns (doc : Doc) : Bool :=
  doc.innerExn.isNone &&
  decide (nameAfterStrategies doc = "Unknown") &&
  decide (postCountAfterFallback doc = 0)

def emResultOf (doc : Doc) : EmergencyResult :=
  performEmergencyAnalysis doc.emergencyInput

/-- The synthesized emergency record. -/
def emergencyRecord : Post :=
  { text := "Activity detected through emergency analysis"
    time := "Estimated"
    type := "emergency-detection" }

/-- The emergency tier contributes activity only for a positive score. -/
def emergencyAddsActivity (doc : Doc) : Bool :=
  emergencyRuns doc && decide (0 < (emResultOf doc).activityScore)

/-- Final profile name (after the optional emergency override). -/
def finalName (doc : Doc) : String :=
  if emergencyRuns doc ∧ (emResultOf doc).profileName ≠ "Unknown" then
    (emResultOf doc).profileName
  else nameAfterStrategies doc

/-- Final post count: the emergency score is additionally capped at 5. -/
def finalPostCount (doc : Doc) : Nat :=
  if emergencyAddsActivity doc then min (emResultOf doc).activityScore 5
  else postCountAfterFallback doc

/-- Final posts list before the display mapping. -/
def finalPosts (doc : Doc) : List Post :=
  if emergencyAddsActivity doc then postsAfterFallback doc ++ [emergencyRecord]
  else postsAfterFallback doc

/-- `extractProfileData`: assemble the result record.  An inner exception
leaves the initial values (`0`, `"Unknown"`, `[]`) and is recorded in
`debug.errors`; the record itself is still produced. -/
def extractProfileData (doc : Doc) : AnalysisResult :=
  { postCount := finalPostCount doc
    profileName := finalName doc
    analyzedAt := doc.now
    posts := (finalPosts doc).map displayPost
    error := none
    debug :=
      { errors := doc.innerExn.toList
        usedFallback := usedFallbackOf doc
        usedEmergencyAnalysis := emergencyRuns doc } }

/-- `extractProfileData` as seen by the caller: `outerExn` models an
unexpected exception escaping the whole function. -/
def extractProfileDataE (doc : Doc) : Except String AnalysisResult :=
  match doc.outerExn with
  | some m => Except.error m
  | none => Except.ok (extractProfileData doc)

/-- The degraded result `analyzeCurrentProfile` resolves with when
`extractProfileData` throws. -/
def errorResult (doc : Doc) (m : String) : AnalysisResult :=
  { postCount := 0
    profileName := "Error"
    analyzedAt := doc.now
    posts := []
    error := some m
    debug := { errors := [m], usedFallback := false, usedEmergencyAnalysis := false } }

/-- `analyzeCurrentProfile`: the orchestrator boundary.  Any exception from
`extractProfileData` is caught and turned into the degraded result; the
caller always receives an `AnalysisResult`. -/
def analyzeCurrentProfile (doc : Doc) : AnalysisResult :=
  match extractProfileDataE doc with
  | Except.ok r => r
  | Except.error m => errorResult doc m

/-! ### Helper lemmas -/

lemma band_true {a b : Bool} (h : (a && b) = true) : a = true ∧ b = true := by
  simpa using h

lemma oOr_pres {α : Type} (P : α → Prop) (a b : Option α)
    (ha : ∀ x, a = some x → P x) (hb : ∀ x, b = some x → P x) :
    ∀ x, oOr a b = some x → P x := by
  intro x h
  cases a with
  | some y => exact ha x (by simpa [oOr] using h)
  | none => exact hb x (by simpa [oOr] using h)

lemma tryCapturePat_isRecent (t : List Char → Option (Nat × List Char))
    (mv : Nat) (text : List Char) :
    ∀ r, tryCapturePat t mv text = some r → r.isRecent = true := by
  intro r h
  unfold tryCapturePat at h
  split at h
  · rcases ite_eq_iff.1 h with ⟨-, h2⟩ | ⟨-, h2⟩
    · injection h2 with h3
      subst h3
      rfl
    · exact absurd h2 (by simp)
  · exact absurd h (by simp)

lemma tryDayPat_isRecent (t : List Char → Option (Unit × List Char))
    (text : List Char) :
    ∀ r, tryDayPat t text = some r → r.isRecent = true := by
  intro r h
  unfold tryDayPat at h
  split at h
  · injection h with h2
    subst h2
    rfl
  · exact absurd h (by simp)

/-- Every match reported by `parseTimeFromText` carries `isRecent = true`:
the only non-recent answer is `none`. -/
lemma parseTimeFromText_isRecent (s : String) :
    ∀ r, parseTimeFromText s = some r → r.isRecent = true := by
  unfold parseTimeFromText
  refine oOr_pres _ _ _ (tryCapturePat_isRecent _ _ _) ?_
  refine oOr_pres _ _ _ (tryCapturePat_isRecent _ _ _) ?_
  refine oOr_pres _ _ _ (tryDayPat_isRecent _ _) ?_
  refine oOr_pres _ _ _ (tryDayPat_isRecent _ _) ?_
  refine oOr_pres _ _ _ (tryCapturePat_isRecent _ _ _) ?_
  refine oOr_pres _ _ _ (tryCapturePat_isRecent _ _ _) ?_
  refine oOr_pres _ _ _ (tryCapturePat_isRecent _ _ _) ?_
  refine oOr_pres _ _ _ (tryCapturePat_isRecent _ _ _) ?_
  refine oOr_pres _ _ _ (tryCapturePat_isRecent _ _ _) ?_
  refine oOr_pres _ _ _ (tryCapturePat_isRecent _ _ _) ?_
  exact oOr_pres _ _ _ (tryCapturePat_isRecent _ _ _) (tryCapturePat_isRecent _ _ _)

/-! ### Claim theorems -/

/-- C2: text-pattern recency parsing classifies the fixture phrases as the
spec states: "3 hours ago" is recent, "30 hours ago" is not (the hour
pattern's bound of 24 rejects it and no later pattern matches),
"45 minutes ago" is recent, "2 days ago" is not (only "1 day ago" and
"yesterday" qualify among day phrases, and both do). -/
theorem text_pattern_fixture_classification :
    parseTimeFromText "3 hours ago" =
      some { isRecent := true, timeStr := "Text: 3 hours ago" } ∧
    parseTimeFromText "30 hours ago" = none ∧
    parseTimeFromText "45 minutes ago" =
      some { isRecent := true, timeStr := "Text: 45 minutes ago" } ∧
    parseTimeFromText "2 days ago" = none ∧
    parseTimeFromText "1 day ago" =
      some { isRecent := true, timeStr := "Text: 1 day ago" } ∧
    parseTimeFromText "yesterday" =
      some { isRecent := true, timeStr := "Text: yesterday" } := by
  decide

/-- C6: the name validation predicate rejects "LinkedIn", "(Premium)",
"123", "View" and the empty string, and accepts "Jane Doe" and
"Dr. A. Smith". -/
theorem name_validation_fixtures :
    isValidProfileName "LinkedIn" = false ∧
    isValidProfileName "(Premium)" = false ∧
    isValidProfileName "123" = false ∧
    isValidProfileName "View" = false ∧
    isValidProfileName "" = false ∧
    isValidProfileName "Jane Doe" = true ∧
    isValidProfileName "Dr. A. Smith" = true := by
  decide

/-- C7: the fallback estimate equals
`clamp(floor(total / 2.5), 0, 12)` where `total` is the sum of the
time-pattern, contextual-activity and structural scores, so on every
document it is an integer between 0 and 12 inclusive. -/
theorem fallback_estimate_clamped (inp : FallbackInput) :
    (performAdvancedFallbackDetection inp).totalScore =
      (performAdvancedFallbackDetection inp).timePatternScoreD +
      (performAdvancedFallbackDetection inp).contextualActivity +
      (performAdvancedFallbackDetection inp).structuralActivity ∧
    ((performAdvancedFallbackDetection inp).count : Int) =
      max 0 (min (Int.floor
        ((performAdvancedFallbackDetection inp).totalScore / (5 / 2 : ℚ))) 12) ∧
    0 ≤ (performAdvancedFallbackDetection inp).count ∧
    (performAdvancedFallbackDetection inp).count ≤ 12 := by
  refine ⟨rfl, ?_, Nat.zero_le _, ?_⟩
  · exact Int.toNat_of_nonneg (le_max_left _ _)
  · show Int.toNat _ ≤ 12
    rw [Int.toNat_le]
    exact max_le (by norm_num) (min_le_right _ _)

lemma fbWeight_nonneg (p : FbPattern) : 0 ≤ fbWeight p := by
  cases p <;> norm_num [fbWeight]

lemma timePatternScore_nonneg (ms : List FallbackMatch) :
    0 ≤ timePatternScore ms := by
  refine List.sum_nonneg ?_
  intro x hx
  rcases List.mem_map.1 hx with ⟨m, -, rfl⟩
  exact fbWeight_nonneg m.pat

lemma timePatternScore_append (a b : List FallbackMatch) :
    timePatternScore (a ++ b) = timePatternScore a + timePatternScore b := by
  simp [timePatternScore, List.filter_append]

/-- C8: the fallback estimator is monotonic in the qualifying time-phrase
matches: appending further qualifying matches, with the contextual and
structural signals held constant, never decreases the estimate. -/
theorem fallback_monotone_in_matches (inp : FallbackInput)
    (extra : List FallbackMatch)
    (hq : ∀ m ∈ extra, fbQualifies m = true) :
    (performAdvancedFallbackDetection inp).count ≤
    (performAdvancedFallbackDetection
      { inp with timeMatches := inp.timeMatches ++ extra }).count := by
  have hts : timePatternScore inp.timeMatches ≤
      timePatternScore (inp.timeMatches ++ extra) := by
    rw [timePatternScore_append]
    have := timePatternScore_nonneg extra
    linarith
  have htot : timePatternScore inp.timeMatches +
      (4 / 5 : ℚ) * inp.contextualPairs + (3 / 10 : ℚ) * inp.structuralMatches ≤
      timePatternScore (inp.timeMatches ++ extra) +
      (4 / 5 : ℚ) * inp.contextualPairs + (3 / 10 : ℚ) * inp.structuralMatches := by
    linarith
  have hdiv := (div_le_div_iff_of_pos_right (by norm_num : (0 : ℚ) < 5 / 2)).mpr htot
  have hfl := Int.floor_le_floor hdiv
  have hmin : min (Int.floor ((timePatternScore inp.timeMatches +
      (4 / 5 : ℚ) * inp.contextualPairs + (3 / 10 : ℚ) * inp.structuralMatches) /
        (5 / 2 : ℚ))) 12 ≤
      min (Int.floor ((timePatternScore (inp.timeMatches ++ extra) +
      (4 / 5 : ℚ) * inp.contextualPairs + (3 / 10 : ℚ) * inp.structuralMatches) /
        (5 / 2 : ℚ))) 12 :=
    min_le_min hfl le_rfl
  have hmax := max_le_max (le_refl (0 : Int)) hmin
  exact Int.toNat_le_toNat hmax

/-- C8 witness: a concrete document whose estimate grows from 0 to 2 when
two qualifying hour phrases are appended. -/
theorem fallback_monotone_in_matches_witness :
    (performAdvancedFallbackDetection
      { timeMatches := [{ pat := FbPattern.hoursAgo, value := 1 }]
        contextualPairs := 0, structuralMatches := 0 }).count ≤
    (performAdvancedFallbackDetection
      { timeMatches := [{ pat := FbPattern.hoursAgo, value := 1 }] ++
          [{ pat := FbPattern.hoursAgo, value := 2 },
           { pat := FbPattern.hoursAgo, value := 3 }]
        contextualPairs := 0, structuralMatches := 0 }).count :=
  fallback_monotone_in_matches
    { timeMatches := [{ pat := FbPattern.hoursAgo, value := 1 }]
      contextualPairs := 0, structuralMatches := 0 }
    [{ pat := FbPattern.hoursAgo, value := 2 },
     { pat := FbPattern.hoursAgo, value := 3 }]
    (by decide)

/-- C1: on an explicit-timestamp fixture (a fragment whose located time
marker carries a valid `datetime` and no descriptive attributes, and whose
text matches no relative-time phrase), the classifier emits a record iff
`cutoff ≤ T ≤ now`; outside that window the fragment is not classified
recent. -/
theorem explicit_timestamp_recency (e : Element) (cutoffTime now t : Int)
    (raw : String) (processed : List String)
    (hte : e.timeEl = some { datetime := some (raw, some t),
                             ariaLabel := none, title := none })
    (htext : parseTimeFromText (jsTrim e.text) = none)
    (hlen : 15 ≤ jsLength (jsTrim e.text))
    (hdup : keyOf (jsTrim e.text) ∉ processed) :
    ((extractPostFromElement e cutoffTime now processed).1).isSome ↔
      (cutoffTime ≤ t ∧ t ≤ now) := by
  have h15 : ¬ jsLength (jsTrim e.text) < 15 := Nat.not_lt.mpr hlen
  by_cases h : cutoffTime ≤ t ∧ t ≤ now <;>
    simp [extractPostFromElement, classifyFragment, parseTimeElement,
          hte, htext, hdup, h15, h]

/-- Fixture for the C1 witness: a fragment whose only time evidence is an
explicit timestamp (instant 100). -/
def tsElem : Element :=
  { text := "A wonderful long report from the office crew"
    timeEl := some { datetime := some ("2024-01-01T00:00:00Z", some 100)
                     ariaLabel := none, title := none }
    hasImage := false, hasVideo := false, hasArticle := false, hasPoll := false }

/-- C1 witness: with cutoff 1000 and now 2000, the instant 100 lies outside
the window, and the fragment is not emitted. -/
theorem explicit_timestamp_recency_witness :
    (((extractPostFromElement tsElem 1000 2000 []).1).isSome ↔
      ((1000 : Int) ≤ 100 ∧ (100 : Int) ≤ 2000)) :=
  explicit_timestamp_recency tsElem 1000 2000 100 "2024-01-01T00:00:00Z" []
    rfl (by decide) (by decide) (by decide)

/-- C10: an out-of-range explicit timestamp does not stop the classifier:
when the fragment's own text matches a qualifying relative-time phrase, the
fragment is still emitted, with the text-derived label. -/
theorem out_of_range_timestamp_falls_through (e : Element)
    (cutoffTime now t : Int) (raw : String) (processed : List String)
    (res : TimeResult)
    (hte : e.timeEl = some { datetime := some (raw, some t),
                             ariaLabel := none, title := none })
    (hout : ¬(cutoffTime ≤ t ∧ t ≤ now))
    (htext : parseTimeFromText (jsTrim e.text) = some res)
    (hlen : 15 ≤ jsLength (jsTrim e.text))
    (hdup : keyOf (jsTrim e.text) ∉ processed) :
    (extractPostFromElement e cutoffTime now processed).1 =
      some { text := jsTrim e.text, time := res.timeStr, type := postTypeOf e } := by
  have h15 : ¬ jsLength (jsTrim e.text) < 15 := Nat.not_lt.mpr hlen
  have hrec : res.isRecent = true := parseTimeFromText_isRecent _ _ htext
  simp [extractPostFromElement, classifyFragment, parseTimeElement,
        hte, htext, hout, hdup, h15, hrec]

/-- Fixture for the C10 witness: explicit timestamp 100 (out of range for
cutoff 1000), but the text contains "2 hours ago". -/
def staleElem : Element :=
  { text := "Shared some great results with the whole crew 2 hours ago"
    timeEl := some { datetime := some ("2019-05-05T12:00:00Z", some 100)
                     ariaLabel := none, title := none }
    hasImage := true, hasVideo := false, hasArticle := false, hasPoll := false }

/-- C10 witness: the stale-timestamp fragment is still emitted, classified
through its text phrase, as an image post. -/
theorem out_of_range_timestamp_falls_through_witness :
    (extractPostFromElement staleElem 1000 2000 []).1 =
      some { text := "Shared some great results with the whole crew 2 hours ago"
             time := "Text: 2 hours ago", type := "image" } :=
  out_of_range_timestamp_falls_through staleElem 1000 2000 100
    "2019-05-05T12:00:00Z" [] { isRecent := true, timeStr := "Text: 2 hours ago" }
    rfl (by decide) (by decide) (by decide) (by decide)

/-- When `extractPostFromElement` emits a record, its key was not yet in the
processed set and is added to it. -/
lemma extractPost_some_spec (e : Element) (c n : Int) (proc : List String)
    (p : Post) (proc2 : List String)
    (h : extractPostFromElement e c n proc = (some p, proc2)) :
    postKey p ∉ proc ∧ proc2 = postKey p :: proc := by
  simp only [extractPostFromElement] at h
  split at h
  · exact absurd h (by simp)
  · rename_i hcond
    split at h
    · rw [Prod.mk.injEq] at h
      obtain ⟨h1, h2⟩ := h
      injection h1 with h1
      subst h1
      subst h2
      exact ⟨(not_or.mp hcond).1, rfl⟩
    · exact absurd h (by simp)

/-- When `extractPostFromElement` skips a fragment, the processed set is
unchanged. -/
lemma extractPost_none_spec (e : Element) (c n : Int) (proc proc2 : List String)
    (h : extractPostFromElement e c n proc = (none, proc2)) :
    proc2 = proc := by
  simp only [extractPostFromElement] at h
  split at h
  · rw [Prod.mk.injEq] at h
    exact h.2.symm
  · split at h
    · exact absurd h (by simp)
    · rw [Prod.mk.injEq] at h
      exact h.2.symm

/-- Invariant of the scan loop: if every accumulated post's key is in the
processed set and the keys are pairwise distinct, the final posts' keys stay
pairwise distinct. -/
lemma scanFold_pairwise (c n : Int) :
    ∀ (es : List Element) (posts : List Post) (proc : List String),
      (∀ p ∈ posts, postKey p ∈ proc) →
      posts.Pairwise (fun p q => postKey p ≠ postKey q) →
      ((es.foldl (scanStep c n) (posts, proc)).1).Pairwise
        (fun p q => postKey p ≠ postKey q) := by
  intro es
  induction es with
  | nil => intro posts proc _ hp; simpa using hp
  | cons e es ih =>
    intro posts proc hmem hp
    rw [List.foldl_cons]
    rcases hex : extractPostFromElement e c n proc with ⟨op, proc2⟩
    rcases op with - | p
    · have h2 : scanStep c n (posts, proc) e = (posts, proc2) := by
        simp [scanStep, hex]
      rw [h2]
      have hpr := extractPost_none_spec e c n proc proc2 hex
      subst hpr
      exact ih posts proc2 hmem hp
    · have h2 : scanStep c n (posts, proc) e = (posts ++ [p], proc2) := by
        simp [scanStep, hex]
      rw [h2]
      obtain ⟨hnot, hpr⟩ := extractPost_some_spec e c n proc p proc2 hex
      subst hpr
      apply ih
      · intro q hq
        rcases List.mem_append.1 hq with hq | hq
        · exact List.mem_cons_of_mem _ (hmem q hq)
        · rw [List.mem_singleton.1 hq]
          exact List.mem_cons_self _ _
      · rw [List.pairwise_append]
        refine ⟨hp, by simp, ?_⟩
        intro a ha b hb
        rw [List.mem_singleton.1 hb]
        intro hEq
        exact hnot (hEq ▸ hmem a ha)

/-- C5: within one scan, all emitted records have pairwise distinct
de-duplication keys (the first 100 characters of the trimmed text), so two
overlapping selector matches covering fragments with the same key yield
exactly one record and every fragment contributes at most one. -/
theorem scan_dedup_keys (elements : List Element) (cutoffTime now : Int) :
    (findRecentPostsEnhanced elements cutoffTime now).Pairwise
      (fun p q => postKey p ≠ postKey q) := by
  unfold findRecentPostsEnhanced
  exact scanFold_pairwise cutoffTime now elements [] [] (by simp) (by simp)

/-- C3: the pipeline never propagates an exception to the caller —
`analyzeCurrentProfile` is total into `AnalysisResult`: when
`extractProfileData` throws, the result degrades to `postCount 0`,
`profileName "Error"` with the message attached, and otherwise the caller
receives the computed record unchanged. -/
theorem orchestrator_never_throws (doc : Doc) :
    (∀ m, extractProfileDataE doc = Except.error m →
      (analyzeCurrentProfile doc).postCount = 0 ∧
      (analyzeCurrentProfile doc).profileName = "Error" ∧
      (analyzeCurrentProfile doc).error = some m) ∧
    (∀ r, extractProfileDataE doc = Except.ok r →
      analyzeCurrentProfile doc = r) := by
  constructor
  · intro m h
    simp [analyzeCurrentProfile, h, errorResult]
  · intro r h
    simp [analyzeCurrentProfile, h]

/-- Fixture for the C3 witness: a document on which `extractProfileData`
raises an unexpected exception. -/
def exnDoc : Doc :=
  { now := 0
    nameCandidates := []
    scanElements := []
    fallbackInput := { timeMatches := [], contextualPairs := 0, structuralMatches := 0 }
    emergencyInput := { texts := [], keywordHits := 0 }
    innerExn := none
    outerExn := some "boom" }

/-- C3 witness: the thrown exception is caught and degraded. -/
theorem orchestrator_never_throws_witness :
    (analyzeCurrentProfile exnDoc).postCount = 0 ∧
    (analyzeCurrentProfile exnDoc).profileName = "Error" ∧
    (analyzeCurrentProfile exnDoc).error = some "boom" :=
  (orchestrator_never_throws exnDoc).1 "boom" rfl

/-- Fixture for the C4 counterexample: the scan finds nothing and the
fallback estimator reports 2 (three qualifying matches of weights 2, 2
and 1: `floor(5 / 2.5) = 2`). -/
def fbDoc : Doc :=
  { now := 0
    nameCandidates := ["Jane Doe"]
    scanElements := []
    fallbackInput :=
      { timeMatches := [{ pat := FbPattern.hoursAgo, value := 2 },
                        { pat := FbPattern.hoursAgo, value := 3 },
                        { pat := FbPattern.minutesAgo, value := 10 }]
        contextualPairs := 0
        structuralMatches := 0 }
    emergencyInput := { texts := [], keywordHits := 0 }
    innerExn := none
    outerExn := none }

/-- C4 counterexample: a returned result with `postCount = 2` but a posts
sequence of length 1 — the mismatch is not a truncation to 10 (the true
scan total is 0, which `postCount` does not reflect either; no truncation
exists in this orchestrator). -/
theorem postcount_truncation_counterexample :
    (extractProfileData fbDoc).postCount = 2 ∧
    (extractProfileData fbDoc).posts.length = 1 ∧
    (findRecentPostsEnhanced fbDoc.scanElements (cutoffOf fbDoc) fbDoc.now).length
      = 0 := by
  with_unfolding_all decide

/-- C4 amended: `postCount` equals the length of `posts` except when the
fallback or emergency estimator fires; then `posts` carries exactly one
synthesized record (of type `fallback-detection` or `emergency-detection`)
while `postCount` is the tier's estimate, at least 1. -/
theorem postcount_matches_posts_or_estimator (doc : Doc) :
    (extractProfileData doc).postCount = (extractProfileData doc).posts.length ∨
    ((extractProfileData doc).posts.length = 1 ∧
     1 ≤ (extractProfileData doc).postCount ∧
     ((extractProfileData doc).posts.map Post.type = ["fallback-detection"] ∨
      (extractProfileData doc).posts.map Post.type = ["emergency-detection"])) := by
  cases hea : emergencyAddsActivity doc with
  | true =>
    right
    have hparts := band_true hea
    have hscore : 0 < (emResultOf doc).activityScore := of_decide_eq_true hparts.2
    have hrunparts := band_true hparts.1
    have hpc0 : postCountAfterFallback doc = 0 := of_decide_eq_true hrunparts.2
    have hfb : usedFallbackOf doc = false := by
      cases hfbc : usedFallbackOf doc with
      | false => rfl
      | true =>
        exfalso
        have hcnt : 0 < fbCountOf doc := of_decide_eq_true (band_true hfbc).2
        simp only [postCountAfterFallback, hfbc, if_true] at hpc0
        omega
    have hscan : scanPostsOf doc = [] := by
      simp only [postCountAfterFallback, hfb, if_false, Bool.false_eq_true,
        ite_false] at hpc0
      exact List.length_eq_zero.mp hpc0
    refine ⟨?_, ?_, Or.inr ?_⟩
    · simp [extractProfileData, finalPosts, hea, postsAfterFallback, hfb, hscan]
    · simp only [extractProfileData, finalPostCount, hea, if_true]
      exact le_min_iff.mpr ⟨hscore, by norm_num⟩
    · simp [extractProfileData, finalPosts, hea, postsAfterFallback, hfb, hscan,
        displayPost, emergencyRecord, truncate150]
  | false =>
    cases hfb : usedFallbackOf doc with
    | true =>
      right
      have hruns : fallbackRuns doc = true := (band_true hfb).1
      have hlen0 : (scanPostsOf doc).length = 0 :=
        of_decide_eq_true (band_true hruns).2
      have hscan : scanPostsOf doc = [] := List.length_eq_zero.mp hlen0
      have hcount : 0 < fbCountOf doc :=
        of_decide_eq_true (band_true hfb).2
      refine ⟨?_, ?_, Or.inl ?_⟩
      · simp [extractProfileData, finalPosts, hea, postsAfterFallback, hfb, hscan]
      · simp only [extractProfileData, finalPostCount, hea, Bool.false_eq_true,
          ite_false, postCountAfterFallback, hfb, if_true]
        exact hcount
      · simp [extractProfileData, finalPosts, hea, postsAfterFallback, hfb, hscan,
          displayPost, fallbackRecord, truncate150]
    | false =>
      left
      simp [extractProfileData, finalPostCount, finalPosts, hea,
        postCountAfterFallback, postsAfterFallback, hfb]

/-- C9 counterexample: the emergency pass's name check is not looser than
the standard validator — `"Jo"` passes `isValidProfileName` but fails the
emergency check (its length-window `3 < length < 60` is extra). -/
theorem emergency_validator_not_looser :
    isValidProfileName "Jo" = true ∧ emergencyNameOk "Jo" = false := by
  decide

/-- C9 amended: the inclusion runs the other way — every candidate accepted
by the emergency pass's name check is accepted by the standard validator
(the emergency check is the standard one plus a length window) — and the
emergency pass runs only when the name is still unknown and the post count
is still 0. -/
theorem emergency_check_stricter_and_guarded :
    (∀ s, emergencyNameOk s = true → isValidProfileName s = true) ∧
    (∀ doc : Doc, (extractProfileData doc).debug.usedEmergencyAnalysis = true →
      nameAfterStrategies doc = "Unknown" ∧ postCountAfterFallback doc = 0) := by
  constructor
  · intro s h
    exact (band_true h).2
  · intro doc h
    have hrun : emergencyRuns doc = true := h
    have hparts := band_true hrun
    have hparts2 := band_true hparts.1
    exact ⟨of_decide_eq_true hparts2.2, of_decide_eq_true hparts.2⟩

/-- Fixture for the C9 witness: an empty document on which the emergency
pass runs. -/
def emDoc : Doc :=
  { now := 0
    nameCandidates := []
    scanElements := []
    fallbackInput := { timeMatches := [], contextualPairs := 0, structuralMatches := 0 }
    emergencyInput := { texts := [], keywordHits := 50 }
    innerExn := none
    outerExn := none }

/-- C9 witness: both parts of the amended claim at concrete inputs —
`"Jane Doe"` passes the emergency check and hence the standard validator,
and on `emDoc` the recorded emergency run implies the guard held. -/
theorem emergency_check_stricter_witness :
    isValidProfileName "Jane Doe" = true ∧
    (nameAfterStrategies emDoc = "Unknown" ∧ postCountAfterFallback emDoc = 0) :=
  ⟨emergency_check_stricter_and_guarded.1 "Jane Doe" (by decide),
   emergency_check_stricter_and_guarded.2 emDoc (by with_unfolding_all decide)⟩

end LinkedInCounter
